import Mathlib

/-!
Verification of the bedrock_fe front-end against its specification.

The repository is a Streamlit front-end: API client functions parse fixed
JSON response shapes into tri-state results, an admin DataFrame pipeline
reshapes user records for grid display, and a streaming generator relays
SSE chat tokens.  This file shallowly embeds those parts and proves the
spec claims about them.

Conventions of the embedding:
- Python `None` / `True` / `False` / ints / strings are modelled by the
  `Value` type; `str(x)` by `Value.pyStr`.
- Fallible Python code (raising) is modelled with `Except String`;
  functions that catch all exceptions are total.
- The backend is not in the repository: an API client function is
  embedded as a function from its inputs to either an early return (no
  network call) or a marker carrying the payload it would send.
- Message constants referenced as `AdminMsg` / `LoginMsg` /
  `LoginSignupMsg` are imported by the source from
  `app.constants.messages` but that module (in `src/`) only defines an
  older generation of names; the referenced classes are modelled as
  opaque distinct strings (the control flow never inspects their text).
-/

namespace BedrockFE

/-- A Python value as it occurs in the data handled by the front-end:
`None`, booleans, integers and strings.  (The admin table pipeline only
moves these around; floats never arise in the modelled fragment.) -/
inductive Value where
  | none : Value
  | bool (b : Bool) : Value
  | int (n : Int) : Value
  | str (s : String) : Value
deriving DecidableEq, Repr

/-- Python `str(x)` on a `Value`.  `str(True) = "True"`, `str(None) = "None"`,
ints print with a leading minus when negative, exactly as `Int.repr`.
(pandas renders a missing `Int64` entry as `<NA>` rather than `None`; no
claim depends on the rendering of missing interval values, so a single
null rendering is used.) -/
def Value.pyStr : Value → String
  | .none => "None"
  | .bool true => "True"
  | .bool false => "False"
  | .int n => toString n
  | .str s => s

/-- Python `str.zfill(width)`: left-pad with `0` up to `width`, keeping a
leading sign in front of the padding. -/
def zfill (width : Nat) (s : String) : String :=
  match s.data with
  | c :: rest =>
    if c = '-' ∨ c = '+' then
      String.mk (c :: List.replicate (width - 1 - rest.length) '0' ++ rest)
    else
      String.mk (List.replicate (width - s.data.length) '0' ++ s.data)
  | [] => String.mk (List.replicate width '0')

/-!
## Message constants

`src/app/constants/messages.py` in the repository defines only the older
`LoginAPI` / `LoginSignup` classes; the classes that the API and admin
modules refer to (`AdminMsg`, `LoginMsg`, `LoginSignupMsg`) are code of
this repository missing from `src/`.  Modelled from the spec: each referenced
constant is an opaque, pairwise-distinct human-readable message; the one
constant whose content a claim relies on, `AdminMsg.DATA_HANDLING_FAIL`,
is a format string that embeds the exception text (spec: the reshaper
"fails loudly (surfaces exception text)").
-/

namespace AdminMsg

/-- Modelled from the spec: warning when no idx is selected. -/
def NO_IDX_ENTER : String := "[경고] 선택된 idx가 없습니다."

/-- Modelled from the spec: protected (admin) accounts may not be modified. -/
def DEFENCE_ADMIN_MODIFY : String := "[경고] 관리자 계정은 수정할 수 없습니다."

/-- Modelled from the spec: hard delete is only for blocked accounts. -/
def NOT_BLOCKED_USER_DELETE : String := "[경고] 정지되지 않은 계정은 삭제할 수 없습니다."

/-- Modelled from the spec: an idx that cannot be converted to int. -/
def WEIRD_IDX_ENTER : String := "[경고] 이상한 idx가 입력되었습니다."

/-- Modelled from the spec: more than one idx selected for a single-idx action. -/
def TOO_MUCH_IDX_ENTER : String := "[경고] idx를 하나만 선택하십시오."

/-- Modelled from the spec: JSON decoding of a 2xx body failed. -/
def PARSING_JSON_FAIL : String := "[접속 실패] 응답 JSON 파싱 실패"

/-- Modelled from the spec: unexpected response shape. -/
def FAIL_UNKNOWN : String := "[접속 실패] 예상치 못한 응답 형식"

/-- Modelled from the spec: user records fetched successfully. -/
def GET_RECORDS : String := "[조회 성공] 사용자 목록을 불러왔습니다."

/-- Modelled from the spec: the reshaper failed; the message surfaces the
exception text `e` (`AdminMsg.DATA_HANDLING_FAIL.format(e=e)`). -/
def DATA_HANDLING_FAIL (e : String) : String :=
  "[오류] 데이터 처리 실패: " ++ e

end AdminMsg

namespace LoginMsg

/-- Modelled from the spec: JSON decoding of a 2xx body failed. -/
def PARSING_JSON_FAIL : String := "[접속 실패] 응답 JSON 파싱 실패 (login)"

/-- Modelled from the spec: unexpected response shape. -/
def FAIL_UNKNOWN : String := "[접속 실패] 예상치 못한 응답 형식 (login)"

/-- Modelled from the spec: valid credentials. -/
def VERIFY_LOGIN_SUCCESS : String := "[접속 성공] 정상적인 ID와 비밀번호 입력"

end LoginMsg

namespace LoginSignupMsg

/-- Modelled from the spec: exactly one of user_id / ktr_id / email may be
supplied to the uniqueness check. -/
def UNIQUE_KEY_ONLY_ONE : String :=
  "[입력오류] user_id, ktr_id, email 중 하나를 입력하십시오."

/-- Modelled from the spec: JSON decoding of a 2xx body failed. -/
def PARSING_JSON_FAIL : String := "[접속 실패] 응답 JSON 파싱 실패 (signup)"

/-- Modelled from the spec: unexpected response shape. -/
def FAIL_UNKNOWN : String := "[접속 실패] 예상치 못한 응답 형식 (signup)"

end LoginSignupMsg

/-!
## `verify_unique_key` (`src/app/api/p1_login.py`)

The function either returns early (no network call) or hands a payload to
`APIResponseHandler.run`.  The two possibilities are made explicit with
`UniqueKeyCall`.
-/

/-- Result of calling `verify_unique_key`: either an early return carrying
the `(ok, msg, data)` triple, or the backend check with the payload that
is posted. -/
inductive UniqueKeyCall where
  | earlyReturn (ok : Option Bool) (msg : String) (data : Option Unit) : UniqueKeyCall
  | backendCheck (payload : List (String × Option String)) : UniqueKeyCall
deriving DecidableEq, Repr

/-- Python `v not in (None, "")`: the field counts as supplied. -/
def isSupplied : Option String → Bool
  | Option.none => false
  | Option.some s => s ≠ ""

/-- The `provided` dict of `verify_unique_key`: the supplied fields, in
source order `user_id`, `ktr_id`, `email`. -/
def providedFields (user_id ktr_id email : Option String) : List (String × Option String) :=
  (List.filter (fun kv => isSupplied kv.2)
    [("user_id", user_id), ("ktr_id", ktr_id), ("email", email)])

/-- `verify_unique_key(user_id, ktr_id, email)` up to the point where the
network is (or is not) reached. -/
def verify_unique_key (user_id ktr_id email : Option String) : UniqueKeyCall :=
  if (providedFields user_id ktr_id email).length ≠ 1 then
    .earlyReturn Option.none LoginSignupMsg.UNIQUE_KEY_ONLY_ONE Option.none
  else
    .backendCheck [("user_id", user_id), ("ktr_id", ktr_id), ("email", email)]

/-!
## JSON values and the 2xx response parsers (`Status200`)

`resp.json()` either raises `ValueError` (modelled as `Option.none`) or
yields a JSON value.  Both parsers under scrutiny annotate the decoded
value as `Optional[dict]`, so the decoded body is modelled as an optional
association list.
-/

/-- A JSON value as decoded by `resp.json()`. -/
inductive JVal where
  | null : JVal
  | bool (b : Bool) : JVal
  | int (n : Int) : JVal
  | str (s : String) : JVal
  | arr (xs : List JVal) : JVal
  | obj (kvs : List (String × JVal)) : JVal

/-- A decoded JSON object (a Python dict). -/
abbrev JObj := List (String × JVal)

/-- Python `d.get(k)`: `None` when the key is absent. -/
def jget (d : JObj) (k : String) : Option JVal :=
  d.lookup k

/-- Python `d.get(k) is True`: the value is the boolean `True` itself. -/
def jIsTrue (v : Option JVal) : Bool :=
  match v with
  | Option.some (.bool true) => true
  | _ => false

/-- The standard `(ok, msg, data)` triple every API client returns:
`ok` is `True` (success), `False` (failure) or `None` (indeterminate). -/
abbrev APIResult (α : Type) := Option Bool × String × Option α

/-- `Status200.verify_login` of `src/app/api/p1_login.py`: parse the 2xx
body of the login check.  `body = Option.none` models a `ValueError` from
`resp.json()` (caught by the source).  The `ok is True` branch reads the
five user-info fields with `data[...]`, which can raise `KeyError`
(modelled by `Except.error`); every other branch returns normally. -/
def Status200.verify_login (body : Option JObj) :
    Except String (APIResult (List (String × JVal))) :=
  match body with
  | Option.none => Except.ok (Option.none, LoginMsg.PARSING_JSON_FAIL, Option.none)
  | Option.some data =>
    if jIsTrue (jget data "ok") then
      -- the five `data[...]` reads; a missing key raises `KeyError`
      -- (the source raises at the first missing key; only whether it
      -- raises, not which key the error names, is observable here)
      match data.lookup "user_name", data.lookup "ktr_id", data.lookup "email",
          data.lookup "developer", data.lookup "admin" with
      | Option.some userName, Option.some ktrId, Option.some email,
          Option.some developer, Option.some admin =>
        Except.ok (Option.some true, LoginMsg.VERIFY_LOGIN_SUCCESS,
          Option.some [("user_name", userName), ("ktr_id", ktrId), ("email", email),
            ("developer", developer), ("admin", admin)])
      | _, _, _, _, _ => Except.error "KeyError"
    else
      Except.ok (Option.some false, LoginMsg.FAIL_UNKNOWN, Option.none)

/-- `MultiRecordsLax.model_validate` of `src/app/schemas/p9_admin.py`:
requires a boolean `ok` field and a list-of-dicts `records` field, all
extra fields ignored.  `Option.none` models a pydantic `ValidationError`.
(pydantic lax-mode coercions of non-`bool` primitives into `ok` are
outside the modelled domain; they only change which defined branch is
taken and no claim depends on them.) -/
def MultiRecordsLax.validate (data : JVal) : Option (Bool × List JObj) :=
  match data with
  | .obj kvs =>
    match kvs.lookup "ok", kvs.lookup "records" with
    | Option.some (.bool b), Option.some (.arr rs) =>
      (rs.mapM (fun r => match r with
        | JVal.obj o => Option.some o
        | _ => Option.none)).map (fun objs => (b, objs))
    | _, _ => Option.none
  | _ => Option.none

/-- `Status200.get_all_user_records` of `src/app/api/p9_admin.py`: parse
the 2xx body of the all-users query.  Both the JSON decode and the
pydantic validation are wrapped in `try/except` by the source, so the
parser is a total function (it can never raise). -/
def Status200.get_all_user_records (body : Option JVal) : APIResult (List JObj) :=
  match body with
  | Option.none => (Option.none, AdminMsg.PARSING_JSON_FAIL, Option.none)
  | Option.some data =>
    match MultiRecordsLax.validate data with
    | Option.none => (Option.none, AdminMsg.FAIL_UNKNOWN, Option.none)
    | Option.some (ok, records) =>
      if ok then (Option.some true, AdminMsg.GET_RECORDS, Option.some records)
      else (Option.some false, AdminMsg.FAIL_UNKNOWN, Option.none)

/-!
## Admin sidebar actions (`src/app/utils/p9_admin.py`, `SideBarAction`)

The session keys the handlers read: `AdminUserModify.INDEX_LIST` (the idx
strings of the rows selected in the grid), `ADMIN_IDX_LIST` (idx strings
of admin accounts) and `BLOCK_IDX_LIST` (idx strings of soft-deleted
accounts), the latter two written by `UserTable._key_idxes_add_to_session`.
-/

/-- The slice of `st.session_state` the sidebar handlers consult. -/
structure AdminSession where
  index_list : List String
  admin_idx_list : List String
  block_idx_list : List String
deriving Repr

/-- A decimal digit and its value. -/
def charDigit? (c : Char) : Option Nat :=
  if '0' ≤ c ∧ c ≤ '9' then Option.some (c.toNat - '0'.toNat) else Option.none

/-- The value of a non-empty all-digit character list. -/
def digitsNat : List Char → Option Nat
  | [] => Option.none
  | l => l.foldl
      (fun acc c => acc.bind (fun a => (charDigit? c).map (fun d => a * 10 + d)))
      (Option.some 0)

/-- Python `int(s)` on an idx string: an optional sign followed by
digits.  (Python also strips surrounding whitespace and accepts
underscore separators; the idx strings of the grid are plain zero-padded
digits, and no claim touches the divergent inputs.) -/
def pyInt? (s : String) : Option Int :=
  match s.data with
  | '-' :: rest => (digitsNat rest).map (fun n => -(n : Int))
  | '+' :: rest => (digitsNat rest).map (fun n => (n : Int))
  | l => (digitsNat l).map (fun n => (n : Int))

/-- `[int(i) for i in idx_list]` inside `try/except`: all-or-nothing. -/
def intListAll (l : List String) : Option (List Int) :=
  l.mapM pyInt?

/-- `SideBarAction._idxes_handler(is_delete)`: validate and convert the
selected idx list.  Returns `(idxes, msg)` with exactly one of the two
set, as in the source. -/
def idxes_handler (sess : AdminSession) (is_delete : Bool) :
    Option (List Int) × Option String :=
  let idx_list := sess.index_list
  if idx_list.length = 0 then
    (Option.none, Option.some AdminMsg.NO_IDX_ENTER)
  else
    -- len(set(idx_list) & set(admin_idxes)) > 0
    if idx_list.any (fun i => sess.admin_idx_list.contains i) then
      (Option.none, Option.some AdminMsg.DEFENCE_ADMIN_MODIFY)
    else
      -- [delete] set(idx_list) & set(blocked_idxes) != set(idx_list)
      if is_delete ∧ ¬ idx_list.all (fun i => sess.block_idx_list.contains i) then
        (Option.none, Option.some AdminMsg.NOT_BLOCKED_USER_DELETE)
      else
        match intListAll idx_list with
        | Option.some l => (Option.some l, Option.none)
        | Option.none => (Option.none, Option.some AdminMsg.WEIRD_IDX_ENTER)

/-- What a sidebar bulk action does after validating: either interrupt
with a flash message (no backend call), or reach the API call / the
delete-confirmation dialog with the converted idx list. -/
inductive BulkOutcome where
  | interrupted (msg : String) : BulkOutcome
  | proceed (idxes : List Int) : BulkOutcome
deriving DecidableEq, Repr

/-- `SideBarAction.signup(way)`: on `idxes is None` interrupt with the
handler's message, otherwise call `modify_bulk_signup(idxes, way)`. -/
def SideBarAction.signup (sess : AdminSession) : BulkOutcome :=
  match idxes_handler sess false with
  | (Option.none, msg) => .interrupted (msg.getD "")
  | (Option.some l, _) => .proceed l

/-- `SideBarAction.block(way)`: same validation, then `modify_bulk_block`. -/
def SideBarAction.block (sess : AdminSession) : BulkOutcome :=
  match idxes_handler sess false with
  | (Option.none, msg) => .interrupted (msg.getD "")
  | (Option.some l, _) => .proceed l

/-- `SideBarAction.delete()`: validation with `is_delete=True`, then the
confirmation dialog (which is what performs `modify_bulk_delete`). -/
def SideBarAction.delete (sess : AdminSession) : BulkOutcome :=
  match idxes_handler sess true with
  | (Option.none, msg) => .interrupted (msg.getD "")
  | (Option.some l, _) => .proceed l

/-- Result of an API client bulk function: early return with the
`(ok, msg, data)` triple, or the POST with its payload. -/
inductive BulkApiCall where
  | noCall (ok : Option Bool) (msg : String) (data : Option Unit) : BulkApiCall
  | post (idxes : List Int) (way : Option Bool) : BulkApiCall
deriving DecidableEq, Repr

/-- `modify_bulk_signup(idxes, way)` of `src/app/api/p9_admin.py`: an
empty `idxes` returns `(None, AdminMsg.NO_IDX_ENTER, None)` with no
network call. -/
def modify_bulk_signup (idxes : List Int) (way : Bool) : BulkApiCall :=
  if idxes.isEmpty then .noCall Option.none AdminMsg.NO_IDX_ENTER Option.none
  else .post idxes (Option.some way)

/-- `modify_bulk_block(idxes, way)`: same guard. -/
def modify_bulk_block (idxes : List Int) (way : Bool) : BulkApiCall :=
  if idxes.isEmpty then .noCall Option.none AdminMsg.NO_IDX_ENTER Option.none
  else .post idxes (Option.some way)

/-- `modify_bulk_delete(idxes)`: same guard, no direction flag. -/
def modify_bulk_delete (idxes : List Int) : BulkApiCall :=
  if idxes.isEmpty then .noCall Option.none AdminMsg.NO_IDX_ENTER Option.none
  else .post idxes Option.none

/-!
## Role aggregation (`src/app/utils/p9_df_handler.py`, `FormatHandler`)

`AdminUserTable.ROLE_COL_DICT` of `src/app/constants/values.py` assigns
weights user=0, developer=1, admin=9; the handler keeps the columns with
non-zero weight, replaces each boolean flag by its weight, sums the two
resulting columns and maps the total 0 to `"user"`, 1 to `"developer"`
and anything else to `"admin"`.
-/

/-- `AdminUserTable.ROLE_COL_DICT` (insertion-ordered dict). -/
def ROLE_COL_DICT : List (String × Int) :=
  [("user", 0), ("developer", 1), ("admin", 9)]

/-- `FormatHandler._get_role_column_list`: the role columns with non-zero
weight, in dict order. -/
def get_role_column_list : List String :=
  (ROLE_COL_DICT.filter (fun kv => kv.2 ≠ 0)).map Prod.fst

/-- `ROLE_COL_DICT[column]` (the handler only looks up keys of the dict). -/
def roleWeight (column : String) : Int :=
  (ROLE_COL_DICT.lookup column).getD 0

/-- A user record's boolean role flag for a role column name (`df[column]`
for the role columns; the only role columns are `developer` and `admin`,
see `get_role_column_list_eq`). -/
def roleFlag (developer admin : Bool) (column : String) : Bool :=
  if column = "developer" then developer
  else if column = "admin" then admin
  else false

/-- `FormatHandler._make_role_number_column` at one record and column:
`np.where(s, ROLE_COL_DICT[column], 0)`. -/
def make_role_number (flag : Bool) (column : String) : Int :=
  if flag then roleWeight column else 0

/-- `FormatHandler._plus_role_number_columns` at one record: the sum of
the two weighted columns `role_columns[0]` and `role_columns[1]`. -/
def role_total (developer admin : Bool) : Int :=
  let role_columns := get_role_column_list
  make_role_number (roleFlag developer admin (role_columns.getD 0 "")) (role_columns.getD 0 "") +
  make_role_number (roleFlag developer admin (role_columns.getD 1 "")) (role_columns.getD 1 "")

/-- `FormatHandler._total_role_number_convert_to_string` at one value:
the nested `np.where` mapping 0 ↦ user, 1 ↦ developer, else admin. -/
def total_role_number_convert_to_string (t : Int) : String :=
  if t = 0 then "user" else if t = 1 then "developer" else "admin"

/-- `FormatHandler.role_handler` at one record: the final role label. -/
def role_string (developer admin : Bool) : String :=
  total_role_number_convert_to_string (role_total developer admin)

/-!
## Column checker (`src/app/utils/p9_df_handler.py`, `Checker`)

`Checker.user_record_column_names` compares the DataFrame's columns with
the string attributes of `UsersRecord` (`src/app/constants/keys.py`) and
raises `KeyError` on a missing or an unexpected column.  Python computes
the two difference lists through `set`, whose iteration order is
implementation-defined; the embedding uses first-occurrence order, which
agrees on emptiness and membership.
-/

/-- The string attributes of `UsersRecord`, in definition order. -/
def expected_cols : List String :=
  ["user_id", "ktr_id", "user_name", "email", "developer", "admin",
   "signup", "idx", "created_at", "updated_at", "signup_at", "deleted_at"]

/-- Comma-join of the element names, as the f-string renders a list. -/
def joinComma : List String → String
  | [] => ""
  | [x] => x
  | x :: y :: t => x ++ ", " ++ joinComma (y :: t)

/-- The `KeyError` message for missing columns
(`f"Users Record에 다음 컬럼이 누락됨: {missing_column}"`).  The list is
rendered by its element names; the exact `repr` punctuation of the
f-string is immaterial to every claim. -/
def missingColsMsg (missing : List String) : String :=
  "Users Record에 다음 컬럼이 누락됨: [" ++ joinComma missing ++ "]"

/-- The `KeyError` message for unexpected extra columns. -/
def extraColsMsg (extra : List String) : String :=
  "Users Record에 예상 외 컬럼 존재: [" ++ joinComma extra ++ "]"

/-- `Checker.user_record_column_names` on the DataFrame's column list:
`Except.error` is the raised `KeyError`. -/
def user_record_column_names (cols : List String) : Except String Unit :=
  let missing := expected_cols.filter (fun c => !cols.contains c)
  if missing ≠ [] then Except.error (missingColsMsg missing)
  else
    let extra := cols.filter (fun c => !expected_cols.contains c)
    if extra ≠ [] then Except.error (extraColsMsg extra)
    else Except.ok ()

/-!
## The admin table DataFrame and `FormatHandler.df_final_cleaner`

A DataFrame is modelled column-major: a list of named columns.  This is
the shape every pipeline operation acts on (`rename` maps names,
`astype(str)` maps values per column, `df["idx"] = ...` replaces one
column).
-/

/-- A pandas DataFrame of the pipeline, column-major. -/
structure DF where
  cols : List (String × List Value)
deriving DecidableEq, Repr

/-- `df[name]` (first column of that name, as pandas selects for unique
column labels — the pipeline's frames have unique labels). -/
def DF.getCol (df : DF) (name : String) : Option (List Value) :=
  df.cols.lookup name

/-- `AdminUserTable.RESULT_NEW_COLUMN_NAMES` of
`src/app/constants/values.py`: the presentation renaming. -/
def RESULT_NEW_COLUMN_NAMES : List (String × String) :=
  [("idx", "idx"), ("user_id", "ID"), ("ktr_id", "사번"), ("email", "이메일"),
   ("signup", "승인여부"), ("deleted_at_interval", "정지일수"), ("role_string", "권한")]

/-- `df.rename(columns=...)` on one label: mapped if a key of the dict,
kept otherwise. -/
def applyRename (name : String) : String :=
  (RESULT_NEW_COLUMN_NAMES.lookup name).getD name

/-- The ints of an all-integer column (the pipeline's `idx` column is
int64; a non-integer value is outside the modelled domain). -/
def colInts : List Value → Option (List Int)
  | [] => Option.some []
  | Value.int n :: t => (colInts t).map (fun ns => n :: ns)
  | _ :: _ => Option.none

/-- `series.max()` on an integer column: the fold of `max` over the
ints.  The empty column is outside the modelled domain: `UserTable.all`
returns before the cleaner whenever `records` is empty. -/
def seriesMaxInt (vs : List Value) : Option Int :=
  (colInts vs).bind (fun ns => match ns with
    | [] => Option.none
    | x :: xs => Option.some (xs.foldl max x))

/-- `len(str(df["idx"].max()))` of the cleaner. -/
def idxMaxSize (vs : List Value) : Nat :=
  match seriesMaxInt vs with
  | Option.some m => (Value.pyStr (Value.int m)).length
  | Option.none => 0

/-- `FormatHandler.df_final_cleaner`: rename the columns for
presentation, convert every value of every column to a string
(`astype('str')`), and zero-pad the `idx` strings to the digit-width of
the maximum idx (`str.zfill`, width computed on the integer column before
the conversion). -/
def df_final_cleaner (df : DF) : DF :=
  let renamed : List (String × List Value) :=
    df.cols.map (fun c => (applyRename c.1, c.2))
  let idxVals : List Value := ((DF.mk renamed).getCol "idx").getD []
  let width : Nat := idxMaxSize idxVals
  DF.mk (renamed.map (fun c =>
    if c.1 = "idx" then
      (c.1, idxVals.map (fun v => Value.str (zfill width (Value.pyStr v))))
    else
      (c.1, c.2.map (fun v => Value.str (Value.pyStr v)))))

/-!
## `UserTable._all_process` and `UserTable.all`

A raw record is the decoded JSON dict of one user.  The frame built by
`pd.DataFrame.from_records` has as columns the union of the records' keys
in first-appearance order.  After the column check the pipeline computes,
per record: the elapsed-time columns (via `pd.to_datetime`, modelled by
an abstract parse function returning a day number, and `now`, a day
number), the `정지여부` (blocked) flag `~deleted_at.isna()` taken on the
raw values, and the role label.  The three derived frames are merged back
onto the origin columns on the key `idx`; each is derived from the same
records and keeps one row per record, so the left-merge is modelled
row-wise.
-/

/-- A raw user record: the JSON dict as a `Value` association list. -/
abbrev RawRecord := List (String × Value)

/-- Column labels of `pd.DataFrame.from_records(records)`: union of the
records' keys in first-appearance order. -/
def dfColumns (records : List RawRecord) : List String :=
  records.foldl
    (fun acc r => acc ++ (r.map Prod.fst).filter (fun k => !acc.contains k)) []

/-- Reading a field of a record (`df[col]` at one row).  A key missing
from one dict is `NaN` in the frame, modelled `Value.none`; for the
expected columns this is unreachable after the checker. -/
def rawGet (r : RawRecord) (k : String) : Value :=
  (r.lookup k).getD Value.none

/-- `pd.isna` on a raw cell: only the nulls are missing. -/
def valIsna : Value → Bool
  | Value.none => true
  | _ => false

/-- Python truthiness of a cell, as `np.where(s, w, 0)` evaluates it. -/
def pyTruthy : Value → Bool
  | Value.none => false
  | Value.bool b => b
  | Value.int n => n ≠ 0
  | Value.str s => s ≠ ""

/-- One cell of `TimeHandler.interval_time`'s interval column:
`pd.to_datetime(t, errors="coerce")`, then `now - t` in days
(`DT_SHOW_ONLY_DATE = True`, so `.dt.days` of the floored timedelta).
`parse` abstracts the datetime parser (a day number, `Option.none` = NaT);
a NaT or null timestamp yields a missing interval. -/
def intervalValue (parse : String → Option Int) (now : Int) (v : Value) : Value :=
  match v with
  | Value.str t =>
    match parse t with
    | Option.some d => Value.int (now - d)
    | Option.none => Value.none
  | _ => Value.none

/-- The merged frame `out` of `UserTable._all_process` just before
`df_final_cleaner`: origin columns `RESULT_ORIGIN_COLUMNS`, then the
merged interval, blocked-flag and role columns, in merge order. -/
def all_process_frame (parse : String → Option Int) (now : Int)
    (records : List RawRecord) : DF :=
  DF.mk [
    ("idx", records.map (fun r => rawGet r "idx")),
    ("user_id", records.map (fun r => rawGet r "user_id")),
    ("ktr_id", records.map (fun r => rawGet r "ktr_id")),
    ("email", records.map (fun r => rawGet r "email")),
    ("signup", records.map (fun r => rawGet r "signup")),
    ("signup_at_interval",
      records.map (fun r => intervalValue parse now (rawGet r "signup_at"))),
    ("정지여부", records.map (fun r => Value.bool (!valIsna (rawGet r "deleted_at")))),
    ("deleted_at_interval",
      records.map (fun r => intervalValue parse now (rawGet r "deleted_at"))),
    ("role_string", records.map (fun r =>
      Value.str (role_string (pyTruthy (rawGet r "developer")) (pyTruthy (rawGet r "admin")))))]

/-- `UserTable._all_process`: column check, then the pipeline and the
final cleaning.  `Except.error` is the exception the caller catches. -/
def all_process (parse : String → Option Int) (now : Int)
    (records : List RawRecord) : Except String DF :=
  match user_record_column_names (dfColumns records) with
  | Except.error e => Except.error e
  | Except.ok _ => Except.ok (df_final_cleaner (all_process_frame parse now records))

/-- Python `str(e)` of a raised `KeyError(msg)`: the repr of its single
argument, i.e. the message in quotes. -/
def pyStrKeyError (msg : String) : String :=
  "'" ++ msg ++ "'"

/-- Truthiness of the backend `ok` value (`not mask`). -/
def pyTruthyOpt : Option Bool → Bool
  | Option.some b => b
  | Option.none => false

/-- `UserTable.all`, with the backend reply
(`get_all_user_records()`, a network call) passed in as data: early
return on a falsy `mask` or empty `records`; otherwise run
`_all_process` and turn an exception into
`(False, AdminMsg.DATA_HANDLING_FAIL.format(e=e), None)`. -/
def user_table_all (parse : String → Option Int) (now : Int)
    (backend : APIResult (List RawRecord)) : APIResult DF :=
  let mask := backend.1
  let msg := backend.2.1
  let records := (backend.2.2).getD []
  if ¬ pyTruthyOpt mask ∨ records.isEmpty then (mask, msg, Option.none)
  else
    match all_process parse now records with
    | Except.ok df => (mask, msg, Option.some df)
    | Except.error e =>
      (Option.some false, AdminMsg.DATA_HANDLING_FAIL (pyStrKeyError e), Option.none)

/-- `df[df[maskCol] == v][outCol].to_list()` on the cleaned frame: the
values of `outCol` at the rows where `maskCol` equals `v` (all values are
strings after the cleaner). -/
def maskSelect (df : DF) (maskCol : String) (v : Value) (outCol : String) : List String :=
  match df.getCol maskCol, df.getCol outCol with
  | Option.some ms, Option.some os =>
    ((ms.zip os).filter (fun p => p.1 == v)).map (fun p => p.2.pyStr)
  | _, _ => []

/-- `UserTable._key_idxes_add_to_session`: the admin idx list (rows with
`권한 == "admin"`) and the blocked idx list (rows with `정지여부 == "True"`),
stored in the session for the sidebar guards. -/
def key_idxes_add_to_session (df : DF) : List String × List String :=
  (maskSelect df "권한" (Value.str "admin") "idx",
   maskSelect df "정지여부" (Value.str "True") "idx")

/-!
## Chat streaming (`src/app/api/p2_chat.py`, `streaming_response`)

The generator posts the payload with `stream=True` and iterates the
response body, yielding each non-empty decoded text chunk; any
`requests.exceptions.RequestException` — from the connect, from
`raise_for_status`, or raised mid-iteration — is caught by the single
`except`, which yields one inline error string, after which the
generator is exhausted.  `SSEConverter.sse_to_txt` lives in the external
`bedrock_core` package and is passed in as a parameter (the generator
only tests its result for truthiness).
-/

/-- One step of iterating the streamed body: a data chunk, or a
`RequestException` raised at that point of the iteration. -/
inductive StreamItem where
  | chunk (s : String) : StreamItem
  | raiseReq (e : String) : StreamItem
deriving DecidableEq, Repr

/-- The outcome of `requests.post(..., stream=True)` together with
`raise_for_status()`: a `RequestException` before any body was read, or
a 2xx response whose body iterates as `items`. -/
inductive PostResult where
  | connError (e : String) : PostResult
  | ok (items : List StreamItem) : PostResult
deriving DecidableEq, Repr

/-- The inline error string (`f"백엔드 연결 오류: {e}"`). -/
def backendErrorMsg (e : String) : String :=
  "백엔드 연결 오류: " ++ e

/-- The `for chunk in r.iter_content(...)` loop body, run to the end of
the iteration: yield `sse_to_txt(chunk)` when truthy; a
`RequestException` raised by the iteration is caught by the enclosing
`except`, which yields the error string and ends the generator. -/
def streamLoop (sseToTxt : String → Option String) : List StreamItem → List String
  | [] => []
  | StreamItem.chunk c :: rest =>
    match sseToTxt c with
    | Option.some t => if t ≠ "" then t :: streamLoop sseToTxt rest else streamLoop sseToTxt rest
    | Option.none => streamLoop sseToTxt rest
  | StreamItem.raiseReq e :: _ => [backendErrorMsg e]

/-- `streaming_response(payload)`: the full list of strings the generator
yields.  The function is total: no exception reaches the caller for any
`RequestException` outcome. -/
def streaming_response (sseToTxt : String → Option String) (r : PostResult) : List String :=
  match r with
  | PostResult.connError e => [backendErrorMsg e]
  | PostResult.ok items => streamLoop sseToTxt items

/-!
## The chat session flags

`SessionKey.STREAMING` / `SessionKey.STOP_STREAM` of
`src/app/constants/keys.py`; `_init_session_action` of
`src/app/utils/session.py` initialises both to `False`, and step 4 of
`Response.main` (`src/app/utils/p2_chat.py`) resets both after the
stream has been consumed.  The streaming generator itself takes the
session as given below and — exactly as the source of
`streaming_response` — never reads `stop_stream` between yields.
-/

/-- The chat-streaming slice of `st.session_state`. -/
structure ChatSession where
  streaming : Bool
  stop_stream : Bool
deriving DecidableEq, Repr

/-- `_init_session_action`, restricted to the streaming flags:
`STREAMING: False, STOP_STREAM: False`. -/
def init_session_action : ChatSession :=
  { streaming := false, stop_stream := false }

/-- Step 4 of `Response.main`: after `st.write_stream` has consumed the
generator, both flags are set to `False`. -/
def response_main_after (_sess : ChatSession) : ChatSession :=
  { streaming := false, stop_stream := false }

/-- `streaming_response` as it runs under a session: the source loop has
no access to and performs no read of the session flags, so the session
argument is unused — this is the source's control flow, not a
simplification. -/
def streaming_response_in_session (_sess : ChatSession)
    (sseToTxt : String → Option String) (r : PostResult) : List String :=
  streaming_response sseToTxt r

/-- The property claimed of the code: the stop flag is consulted between
successive yields, so a set flag stops the stream at the next yield
boundary (at most one further yield can complete once `stop_stream` is
set before the stream starts). -/
def StopFlagRespected : Prop :=
  ∀ (sess : ChatSession) (sseToTxt : String → Option String) (items : List StreamItem),
    sess.stop_stream = true →
    (streaming_response_in_session sess sseToTxt (PostResult.ok items)).length ≤ 1

/-!
# Theorems
-/

/-- C2: exactly one of `user_id`, `ktr_id`, `email` may be supplied
(`None` and `""` count as not supplied): when the number of supplied
fields is not exactly one, `verify_unique_key` returns the indeterminate
triple `(None, unique-key-only-one message, None)` without a backend
call, and when exactly one is supplied the backend check is performed
with the three-field payload. -/
theorem verify_unique_key_exactly_one (user_id ktr_id email : Option String) :
    isSupplied Option.none = false ∧ isSupplied (Option.some "") = false ∧
    ((providedFields user_id ktr_id email).length ≠ 1 →
      verify_unique_key user_id ktr_id email =
        UniqueKeyCall.earlyReturn Option.none LoginSignupMsg.UNIQUE_KEY_ONLY_ONE Option.none) ∧
    ((providedFields user_id ktr_id email).length = 1 →
      verify_unique_key user_id ktr_id email =
        UniqueKeyCall.backendCheck
          [("user_id", user_id), ("ktr_id", ktr_id), ("email", email)]) := by
  refine ⟨rfl, by decide, ?_, ?_⟩ <;> intro h <;> simp [verify_unique_key, h]

/-- C2 witness: one supplied field reaches the backend, zero supplied
fields return the indeterminate triple. -/
theorem verify_unique_key_exactly_one_witness :
    verify_unique_key (Option.some "alice") Option.none Option.none =
      UniqueKeyCall.backendCheck
        [("user_id", Option.some "alice"), ("ktr_id", Option.none), ("email", Option.none)] ∧
    verify_unique_key Option.none Option.none Option.none =
      UniqueKeyCall.earlyReturn Option.none LoginSignupMsg.UNIQUE_KEY_ONLY_ONE Option.none :=
  ⟨(verify_unique_key_exactly_one (Option.some "alice") Option.none Option.none).2.2.2
      (by decide),
   (verify_unique_key_exactly_one Option.none Option.none Option.none).2.2.1
      (by decide)⟩

/-- C4: the role label comes from summing the weighted boolean role flags
with weights developer=1 and admin=9 (the zero-weight `user` entry is
excluded from the summed columns); a total of 0 is labelled `user`, a
total of exactly 1 `developer`, and any other total `admin` — so every
record with the admin flag is labelled `admin`, and a record with only
the developer flag is labelled `developer`. -/
theorem role_label_weighted_sum (developer admin : Bool) :
    get_role_column_list = ["developer", "admin"] ∧
    role_total developer admin =
      (if developer then 1 else 0) + (if admin then 9 else 0) ∧
    role_string developer admin =
      (if role_total developer admin = 0 then "user"
       else if role_total developer admin = 1 then "developer" else "admin") ∧
    (admin = true → role_string developer admin = "admin") ∧
    (developer = true → admin = false → role_string developer admin = "developer") := by
  cases developer <;> cases admin <;>
    exact ⟨by decide, by decide, by decide, by decide, by decide⟩

/-- C4 witness: an admin-flagged record is labelled `admin`, a
developer-only record `developer`. -/
theorem role_label_weighted_sum_witness :
    role_string true true = "admin" ∧ role_string true false = "developer" :=
  ⟨(role_label_weighted_sum true true).2.2.2.1 rfl,
   (role_label_weighted_sum true false).2.2.2.2 rfl rfl⟩

/-- C8: when the streamed chat request fails with a request exception —
before any body is read, or at any point of the body iteration — the
generator yields exactly one inline error string after the texts already
yielded and then terminates, and (being a total function of the outcome)
no exception propagates to the caller. -/
theorem streaming_response_error_inline (sseToTxt : String → Option String)
    (e : String) (cs : List String) (rest : List StreamItem) :
    streaming_response sseToTxt (PostResult.connError e) = [backendErrorMsg e] ∧
    streaming_response sseToTxt
        (PostResult.ok (cs.map StreamItem.chunk ++ StreamItem.raiseReq e :: rest)) =
      streamLoop sseToTxt (cs.map StreamItem.chunk) ++ [backendErrorMsg e] ∧
    streamLoop sseToTxt (cs.map StreamItem.chunk) =
      cs.filterMap (fun c =>
        match sseToTxt c with
        | Option.some t => if t ≠ "" then Option.some t else Option.none
        | Option.none => Option.none) := by
  refine ⟨rfl, ?_, ?_⟩
  · simp only [streaming_response]
    induction cs with
    | nil => rfl
    | cons c t ih =>
      simp only [List.map_cons, List.cons_append, streamLoop]
      cases h : sseToTxt c with
      | none => simpa using ih
      | some s =>
        by_cases hs : s = "" <;> simp [hs, ih]
  · induction cs with
    | nil => rfl
    | cons c t ih =>
      simp only [List.map_cons, streamLoop, List.filterMap_cons]
      cases h : sseToTxt c with
      | none => simpa using ih
      | some s =>
        by_cases hs : s = "" <;> simp [hs, ih]

/-- C7 counterexample: the claim that the stop flag in the session is
consulted between successive yields (so that a set flag stops the stream
at the next yield boundary) is false: with `stop_stream = true` from the
start, a two-chunk stream still yields both chunks. -/
theorem stop_flag_not_respected : ¬ StopFlagRespected := by
  intro h
  have h2 := h { streaming := true, stop_stream := true }
    (fun s => Option.some s) [StreamItem.chunk "a", StreamItem.chunk "b"] rfl
  simp [streaming_response_in_session, streaming_response, streamLoop] at h2

/-- C7 amended: the session defines the stop flag (initialised to `False`
and reset to `False` together with the streaming flag after the stream is
consumed), but the streaming generator never consults it between yields:
its output is independent of the flag, and the stream runs to completion
(or to the first request error) regardless of the flag's value. -/
theorem stream_independent_of_stop_flag (sess : ChatSession)
    (sseToTxt : String → Option String) (r : PostResult) :
    streaming_response_in_session sess sseToTxt r =
      streaming_response_in_session { sess with stop_stream := false } sseToTxt r ∧
    streaming_response_in_session sess sseToTxt r = streaming_response sseToTxt r ∧
    response_main_after sess = { streaming := false, stop_stream := false } ∧
    init_session_action.stop_stream = false :=
  ⟨rfl, rfl, rfl, rfl⟩

/-- C1: every admin bulk action (signup/approve, block/restore, delete)
interrupts with the no-idx message when the selected idx list is empty,
and with the admin-protection message when the selection shares an
element with the session's admin idx list; in both cases the outcome is
`interrupted`, i.e. no backend call (and no dialog) is reached.  The API
clients additionally guard an empty list themselves, returning
`(None, no-idx message, None)` without posting. -/
theorem bulk_actions_guarded (sess : AdminSession) (way : Bool) :
    (sess.index_list = [] →
      SideBarAction.signup sess = BulkOutcome.interrupted AdminMsg.NO_IDX_ENTER ∧
      SideBarAction.block sess = BulkOutcome.interrupted AdminMsg.NO_IDX_ENTER ∧
      SideBarAction.delete sess = BulkOutcome.interrupted AdminMsg.NO_IDX_ENTER) ∧
    ((∃ i, i ∈ sess.index_list ∧ i ∈ sess.admin_idx_list) →
      SideBarAction.signup sess = BulkOutcome.interrupted AdminMsg.DEFENCE_ADMIN_MODIFY ∧
      SideBarAction.block sess = BulkOutcome.interrupted AdminMsg.DEFENCE_ADMIN_MODIFY ∧
      SideBarAction.delete sess = BulkOutcome.interrupted AdminMsg.DEFENCE_ADMIN_MODIFY) ∧
    modify_bulk_signup [] way = BulkApiCall.noCall Option.none AdminMsg.NO_IDX_ENTER Option.none ∧
    modify_bulk_block [] way = BulkApiCall.noCall Option.none AdminMsg.NO_IDX_ENTER Option.none ∧
    modify_bulk_delete [] = BulkApiCall.noCall Option.none AdminMsg.NO_IDX_ENTER Option.none := by
  refine ⟨?_, ?_, rfl, rfl, rfl⟩
  · intro h
    refine ⟨?_, ?_, ?_⟩ <;>
      simp [SideBarAction.signup, SideBarAction.block, SideBarAction.delete,
        idxes_handler, h]
  · rintro ⟨i, hi, ha⟩
    have hlen : ¬ sess.index_list.length = 0 := by
      simp only [List.length_eq_zero]
      exact List.ne_nil_of_mem hi
    have hex : ∃ x ∈ sess.index_list, x ∈ sess.admin_idx_list := ⟨i, hi, ha⟩
    refine ⟨?_, ?_, ?_⟩ <;>
      simp [SideBarAction.signup, SideBarAction.block, SideBarAction.delete,
        idxes_handler, hlen, hex]

/-- C1 witness: a concrete empty selection interrupts with the no-idx
message, and a selection containing the admin account 1 interrupts with
the admin-protection message. -/
theorem bulk_actions_guarded_witness :
    SideBarAction.delete { index_list := [], admin_idx_list := ["1"], block_idx_list := [] } =
      BulkOutcome.interrupted AdminMsg.NO_IDX_ENTER ∧
    SideBarAction.signup { index_list := ["1", "2"], admin_idx_list := ["1"], block_idx_list := [] } =
      BulkOutcome.interrupted AdminMsg.DEFENCE_ADMIN_MODIFY :=
  ⟨((bulk_actions_guarded
      { index_list := [], admin_idx_list := ["1"], block_idx_list := [] } true).1 rfl).2.2,
   ((bulk_actions_guarded
      { index_list := ["1", "2"], admin_idx_list := ["1"], block_idx_list := [] } true).2.1
      ⟨"1", by decide, by decide⟩).1⟩

/-- C3: both 2xx parsers return a tri-state success value (`True`,
`False` or `None`) paired with one of the fixed human-readable messages;
in particular a 2xx body that fails JSON decoding yields exactly
`(None, parsing-failure message, None)`, with no exception reaching the
caller (`get_all_user_records` is total; `verify_login` returns — rather
than raises — on every decode failure). -/
theorem status200_parsers_tri_state :
    Status200.verify_login Option.none =
      Except.ok (Option.none, LoginMsg.PARSING_JSON_FAIL, Option.none) ∧
    Status200.get_all_user_records Option.none =
      (Option.none, AdminMsg.PARSING_JSON_FAIL, Option.none) ∧
    (∀ (body : Option JObj) (r : APIResult (List (String × JVal))),
      Status200.verify_login body = Except.ok r →
        (r.1 = Option.some true ∧ r.2.1 = LoginMsg.VERIFY_LOGIN_SUCCESS) ∨
        (r.1 = Option.some false ∧ r.2.1 = LoginMsg.FAIL_UNKNOWN) ∨
        (r.1 = Option.none ∧ r.2.1 = LoginMsg.PARSING_JSON_FAIL)) ∧
    (∀ (body : Option JVal),
      ((Status200.get_all_user_records body).1 = Option.some true ∧
        (Status200.get_all_user_records body).2.1 = AdminMsg.GET_RECORDS) ∨
      ((Status200.get_all_user_records body).1 = Option.some false ∧
        (Status200.get_all_user_records body).2.1 = AdminMsg.FAIL_UNKNOWN) ∨
      ((Status200.get_all_user_records body).1 = Option.none ∧
        ((Status200.get_all_user_records body).2.1 = AdminMsg.PARSING_JSON_FAIL ∨
         (Status200.get_all_user_records body).2.1 = AdminMsg.FAIL_UNKNOWN))) := by
  refine ⟨rfl, rfl, ?_, ?_⟩
  · intro body r h
    match body with
    | Option.none =>
      right; right
      simp only [Status200.verify_login] at h
      cases h
      exact ⟨rfl, rfl⟩
    | Option.some data =>
      simp only [Status200.verify_login] at h
      split at h
      · split at h
        · cases h
          left; exact ⟨rfl, rfl⟩
        · cases h
      · cases h
        right; left; exact ⟨rfl, rfl⟩
  · intro body
    match body with
    | Option.none => right; right; exact ⟨rfl, Or.inl rfl⟩
    | Option.some data =>
      simp only [Status200.get_all_user_records]
      match MultiRecordsLax.validate data with
      | Option.none => right; right; exact ⟨rfl, Or.inr rfl⟩
      | Option.some (ok, records) =>
        cases ok
        · right; left; exact ⟨rfl, rfl⟩
        · left; exact ⟨rfl, rfl⟩

/-- C3 witness: a decode failure returns the indeterminate triple, and a
concrete failure body parses to the failure branch. -/
theorem status200_parsers_tri_state_witness :
    Status200.verify_login Option.none =
      Except.ok (Option.none, LoginMsg.PARSING_JSON_FAIL, Option.none) ∧
    (((Option.some false : Option Bool) = Option.some true ∧
        LoginMsg.FAIL_UNKNOWN = LoginMsg.VERIFY_LOGIN_SUCCESS) ∨
      ((Option.some false : Option Bool) = Option.some false ∧
        LoginMsg.FAIL_UNKNOWN = LoginMsg.FAIL_UNKNOWN) ∨
      ((Option.some false : Option Bool) = Option.none ∧
        LoginMsg.FAIL_UNKNOWN = LoginMsg.PARSING_JSON_FAIL)) :=
  ⟨status200_parsers_tri_state.1,
   status200_parsers_tri_state.2.2.1 (Option.some [("ok", JVal.bool false)])
     (Option.some false, LoginMsg.FAIL_UNKNOWN, Option.none) rfl⟩

/-- Every member of a list occurs inside its comma-join. -/
theorem joinComma_mem_decomp (l : List String) (c : String) (hc : c ∈ l) :
    ∃ a b, joinComma l = a ++ (c ++ b) := by
  induction l with
  | nil => cases hc
  | cons x t ih =>
    rcases List.mem_cons.mp hc with hcx | hct
    · subst hcx
      cases t with
      | nil =>
        exact ⟨"", "", by
          simp [joinComma, String.empty_append, String.append_empty]⟩
      | cons y t2 =>
        refine ⟨"", ", " ++ joinComma (y :: t2), ?_⟩
        simp [joinComma, String.empty_append, String.append_assoc]
    · obtain ⟨a, b, hab⟩ := ih hct
      cases t with
      | nil => cases hct
      | cons y t2 =>
        refine ⟨x ++ ", " ++ a, b, ?_⟩
        simp [joinComma, hab, String.append_assoc]

/-- C10: `Checker.user_record_column_names` demands the exact expected
column set: it passes without error precisely when the DataFrame's column
set equals the expected user-record column set, and raises a `KeyError`
precisely when the two sets differ — an unexpected extra column is
rejected just like a missing one. -/
theorem user_record_column_names_exact (cols : List String) :
    (user_record_column_names cols = Except.ok () ↔
      cols.toFinset = expected_cols.toFinset) ∧
    ((∃ e, user_record_column_names cols = Except.error e) ↔
      cols.toFinset ≠ expected_cols.toFinset) := by
  have hMnil : (expected_cols.filter (fun c => !cols.contains c) = []) ↔
      ∀ c ∈ expected_cols, c ∈ cols := by
    simp [List.filter_eq_nil_iff]
  have hXnil : (cols.filter (fun c => !expected_cols.contains c) = []) ↔
      ∀ c ∈ cols, c ∈ expected_cols := by
    simp [List.filter_eq_nil_iff]
  have hset : cols.toFinset = expected_cols.toFinset ↔
      ((∀ c ∈ expected_cols, c ∈ cols) ∧ (∀ c ∈ cols, c ∈ expected_cols)) := by
    rw [Finset.ext_iff]
    simp only [List.mem_toFinset]
    constructor
    · intro h
      exact ⟨fun c hc => (h c).mpr hc, fun c hc => (h c).mp hc⟩
    · rintro ⟨h1, h2⟩ a
      exact ⟨fun ha => h2 a ha, fun ha => h1 a ha⟩
  have hok : user_record_column_names cols = Except.ok () ↔
      ((expected_cols.filter (fun c => !cols.contains c) = []) ∧
       (cols.filter (fun c => !expected_cols.contains c) = [])) := by
    simp only [user_record_column_names]
    split_ifs with h1 h2 <;> simp_all
  have herr : (∃ e, user_record_column_names cols = Except.error e) ↔
      ¬ ((expected_cols.filter (fun c => !cols.contains c) = []) ∧
         (cols.filter (fun c => !expected_cols.contains c) = [])) := by
    simp only [user_record_column_names]
    split_ifs with h1 h2 <;> simp_all
  constructor
  · rw [hok, hMnil, hXnil, hset]
  · rw [herr, Ne, hset, hMnil, hXnil]

/-- C10 witness: the exact expected column list passes, a missing column
(`deleted_at` removed) errors, and an extra column errors. -/
theorem user_record_column_names_exact_witness :
    user_record_column_names expected_cols = Except.ok () ∧
    (∃ e, user_record_column_names (expected_cols.take 11) = Except.error e) ∧
    (∃ e, user_record_column_names ("extra" :: expected_cols) = Except.error e) :=
  ⟨(user_record_column_names_exact expected_cols).1.mpr rfl,
   (user_record_column_names_exact (expected_cols.take 11)).2.mpr (by decide),
   (user_record_column_names_exact ("extra" :: expected_cols)).2.mpr (by decide)⟩

/-- C5: when the fetched user records lack an expected user-record
column, the reshaper fails loudly: the column check raises a `KeyError`
whose message names every missing column, `UserTable.all` catches the
exception, and returns `(False, a message containing the exception text,
None)` instead of a table. -/
theorem user_table_all_missing_column (parse : String → Option Int) (now : Int)
    (records : List RawRecord) (msg0 : String) (M : List String)
    (hM : M = expected_cols.filter (fun c => !(dfColumns records).contains c))
    (h : ∃ c ∈ expected_cols, c ∉ dfColumns records) (hne : records ≠ []) :
    M ≠ [] ∧
    user_record_column_names (dfColumns records) = Except.error (missingColsMsg M) ∧
    user_table_all parse now (Option.some true, msg0, Option.some records) =
      (Option.some false,
        AdminMsg.DATA_HANDLING_FAIL (pyStrKeyError (missingColsMsg M)),
        Option.none) ∧
    (∀ c ∈ M, ∃ a b, missingColsMsg M = a ++ (c ++ b)) ∧
    (∃ a b,
      AdminMsg.DATA_HANDLING_FAIL (pyStrKeyError (missingColsMsg M)) =
        a ++ (missingColsMsg M ++ b)) := by
  obtain ⟨c, hc, hcnot⟩ := h
  have hcM : c ∈ M := by
    rw [hM]
    refine List.mem_filter.mpr ⟨hc, ?_⟩
    simpa using hcnot
  have hMne : M ≠ [] := List.ne_nil_of_mem hcM
  have hchk : user_record_column_names (dfColumns records) =
      Except.error (missingColsMsg M) := by
    simp only [user_record_column_names, ← hM]
    rw [if_pos hMne]
  refine ⟨hMne, hchk, ?_, ?_, ?_⟩
  · have hrec : ¬ records.isEmpty = true := by
      simpa [List.isEmpty_iff] using hne
    simp [user_table_all, pyTruthyOpt, hrec, all_process, hchk]
  · intro d hd
    obtain ⟨a, b, hab⟩ := joinComma_mem_decomp M d hd
    exact ⟨"Users Record에 다음 컬럼이 누락됨: [" ++ a, b ++ "]", by
      simp [missingColsMsg, hab, String.append_assoc]⟩
  · refine ⟨"[오류] 데이터 처리 실패: '", "'", ?_⟩
    simp only [AdminMsg.DATA_HANDLING_FAIL, pyStrKeyError, String.append_assoc]
    rw [← String.append_assoc, ← String.append_assoc]
    have hA : "[오류] 데이터 처리 실패: " ++ "'" = "[오류] 데이터 처리 실패: '" := rfl
    rw [hA, String.append_assoc]

/-- C5 witness: one record that lacks `deleted_at` (and all other
timestamp columns) makes `UserTable.all` return `(False, message with
the KeyError text, None)`. -/
theorem user_table_all_missing_column_witness :
    user_record_column_names
        (dfColumns [[("user_id", Value.str "u"), ("ktr_id", Value.str "k"),
          ("user_name", Value.str "n"), ("email", Value.str "e"),
          ("developer", Value.bool false), ("admin", Value.bool false),
          ("signup", Value.bool true), ("idx", Value.int 1),
          ("created_at", Value.none), ("updated_at", Value.none),
          ("signup_at", Value.none)]]) =
      Except.error (missingColsMsg ["deleted_at"]) ∧
    user_table_all (fun _ => Option.none) 0
        (Option.some true, "ok",
          Option.some [[("user_id", Value.str "u"), ("ktr_id", Value.str "k"),
            ("user_name", Value.str "n"), ("email", Value.str "e"),
            ("developer", Value.bool false), ("admin", Value.bool false),
            ("signup", Value.bool true), ("idx", Value.int 1),
            ("created_at", Value.none), ("updated_at", Value.none),
            ("signup_at", Value.none)]]) =
      (Option.some false,
        AdminMsg.DATA_HANDLING_FAIL (pyStrKeyError (missingColsMsg ["deleted_at"])),
        Option.none) := by
  have h := user_table_all_missing_column (fun _ => Option.none) 0
    [[("user_id", Value.str "u"), ("ktr_id", Value.str "k"),
      ("user_name", Value.str "n"), ("email", Value.str "e"),
      ("developer", Value.bool false), ("admin", Value.bool false),
      ("signup", Value.bool true), ("idx", Value.int 1),
      ("created_at", Value.none), ("updated_at", Value.none),
      ("signup_at", Value.none)]] "ok" ["deleted_at"]
    (by decide) ⟨"deleted_at", by decide, by decide⟩ (by decide)
  exact ⟨h.2.1, h.2.2.1⟩

/-- `str(True)` / `str(False)` as a function of the flag. -/
theorem Value.pyStr_bool (b : Bool) :
    (Value.bool b).pyStr = if b then "True" else "False" := by
  cases b <;> rfl

/-- `str` of a string cell is the string itself. -/
theorem Value.pyStr_str (s : String) : (Value.str s).pyStr = s := rfl

/-- Selecting rows by a stringified boolean flag column and reading a
string column: the zip-filter-map computes the filtered projection. -/
theorem maskZipFilter (records : List RawRecord) (fl : RawRecord → Bool)
    (g : RawRecord → String) :
    (((records.map (fun r => Value.str (Value.pyStr (Value.bool (fl r))))).zip
        (records.map (fun r => Value.str (g r)))).filter
      (fun p => p.1 == Value.str "True")).map
        (fun (p : Value × Value) => p.2.pyStr)
    = (records.filter fl).map g := by
  induction records with
  | nil => rfl
  | cons r t ih =>
    simp only [List.map_cons, List.zip_cons_cons, List.filter_cons]
    simp only [Value.pyStr_bool] at ih ⊢
    cases hb : fl r
    · simp [hb, ih]
    · simp [hb, Value.pyStr_str, ih]

/-- C9: hard delete is only requested for already soft-deleted (blocked)
accounts.  (1) Whenever the delete-path validation accepts a selection,
every selected idx is in the session's blocked idx list; (2) a selection
that is non-empty, admin-free and not contained in the blocked list is
rejected with the not-blocked warning and no dialog or backend call is
reached; (3) the blocked idx list stored by the reshaper consists of
exactly the (zero-padded) idxes of the records whose `deleted_at` is
non-null. -/
theorem hard_delete_only_blocked :
    (∀ (sess : AdminSession) (l : List Int),
      (idxes_handler sess true).1 = Option.some l →
      ∀ i ∈ sess.index_list, i ∈ sess.block_idx_list) ∧
    (∀ sess : AdminSession, sess.index_list ≠ [] →
      (∀ i ∈ sess.index_list, i ∉ sess.admin_idx_list) →
      (∃ i ∈ sess.index_list, i ∉ sess.block_idx_list) →
      idxes_handler sess true =
        (Option.none, Option.some AdminMsg.NOT_BLOCKED_USER_DELETE) ∧
      SideBarAction.delete sess =
        BulkOutcome.interrupted AdminMsg.NOT_BLOCKED_USER_DELETE) ∧
    (∀ (parse : String → Option Int) (now : Int) (records : List RawRecord),
      (key_idxes_add_to_session
          (df_final_cleaner (all_process_frame parse now records))).2 =
        (records.filter (fun r => !valIsna (rawGet r "deleted_at"))).map
          (fun r =>
            zfill (idxMaxSize (records.map (fun r2 => rawGet r2 "idx")))
              (Value.pyStr (rawGet r "idx")))) := by
  refine ⟨?_, ?_, ?_⟩
  · intro sess l h i hi
    simp only [idxes_handler] at h
    split_ifs at h with h1 h2 h3
    all_goals first
      | (simp at h)
      | (simp only [not_and, not_not] at h3
         have hall := h3 (by trivial)
         simp only [List.all_eq_true] at hall
         have := hall i hi
         simpa using this)
  · intro sess hne hadmin hex
    have hlen : ¬ sess.index_list.length = 0 := by
      simpa [List.length_eq_zero] using hne
    have hnadmin : ¬ ∃ x ∈ sess.index_list, x ∈ sess.admin_idx_list := by
      rintro ⟨x, hx, hax⟩
      exact hadmin x hx hax
    obtain ⟨i, hi, hib⟩ := hex
    have hdel : ∃ x ∈ sess.index_list, x ∉ sess.block_idx_list := ⟨i, hi, hib⟩
    constructor
    · simp [idxes_handler, hlen, hnadmin, hdel]
    · simp [SideBarAction.delete, idxes_handler, hlen, hnadmin, hdel]
  · intro parse now records
    have h1 : (key_idxes_add_to_session
        (df_final_cleaner (all_process_frame parse now records))).2 =
        ((((records.map (fun r =>
            Value.bool (!valIsna (rawGet r "deleted_at")))).map
              (fun v => Value.str (Value.pyStr v))).zip
          ((records.map (fun r2 => rawGet r2 "idx")).map
            (fun v => Value.str
              (zfill (idxMaxSize (records.map (fun r2 => rawGet r2 "idx")))
                (Value.pyStr v))))).filter
            (fun (p : Value × Value) => p.1 == Value.str "True")).map
          (fun (p : Value × Value) => p.2.pyStr) := rfl
    rw [h1, List.map_map, List.map_map]
    exact maskZipFilter records (fun r => !valIsna (rawGet r "deleted_at"))
      (fun r =>
        zfill (idxMaxSize (records.map (fun r2 => rawGet r2 "idx")))
          (Value.pyStr (rawGet r "idx")))

/-- C9 witness: a selection not contained in the blocked list is
interrupted with the not-blocked warning, and an accepted selection is
inside the blocked list. -/
theorem hard_delete_only_blocked_witness :
    SideBarAction.delete
        { index_list := ["2"], admin_idx_list := ["1"], block_idx_list := [] } =
      BulkOutcome.interrupted AdminMsg.NOT_BLOCKED_USER_DELETE ∧
    "3" ∈ (AdminSession.mk ["3"] ["1"] ["3"]).block_idx_list :=
  ⟨(hard_delete_only_blocked.2.1
      { index_list := ["2"], admin_idx_list := ["1"], block_idx_list := [] }
      (by decide) (by decide) ⟨"2", by decide, by decide⟩).2,
   hard_delete_only_blocked.1 (AdminSession.mk ["3"] ["1"] ["3"]) [3]
     (by decide) "3" (by decide)⟩

/-- The fold of `max` lands in the list it folds over. -/
theorem foldl_max_mem (xs : List Int) (x : Int) : xs.foldl max x ∈ x :: xs := by
  induction xs generalizing x with
  | nil => simp
  | cons y t ih =>
    simp only [List.foldl]
    have h := ih (max x y)
    rcases List.mem_cons.mp h with h1 | h1
    · rw [h1]
      rcases max_choice x y with hm | hm <;> rw [hm] <;> simp
    · simp [h1]

/-- The fold of `max` bounds every element it folds over. -/
theorem le_foldl_max (xs : List Int) (x : Int) :
    ∀ y ∈ x :: xs, y ≤ xs.foldl max x := by
  induction xs generalizing x with
  | nil => intro y hy; simp at hy; simp [hy]
  | cons z t ih =>
    intro y hy
    rcases List.mem_cons.mp hy with h1 | h1
    · subst h1
      calc y ≤ max y z := le_max_left y z
        _ ≤ t.foldl max (max y z) := ih (max y z) _ (List.mem_cons_self _ _)
    · rcases List.mem_cons.mp h1 with h2 | h2
      · subst h2
        calc y ≤ max x y := le_max_right x y
          _ ≤ t.foldl max (max x y) := ih (max x y) _ (List.mem_cons_self _ _)
      · exact ih (max x z) y (List.mem_cons_of_mem _ h2)

/-- Extracting the ints back out of an all-int column. -/
theorem colInts_map_int (ns : List Int) :
    colInts (ns.map Value.int) = Option.some ns := by
  induction ns with
  | nil => rfl
  | cons n t ih => simp [colInts, ih]

/-- `seriesMaxInt` on an all-int column is the fold of `max`. -/
theorem seriesMaxInt_map_int (n0 : Int) (t : List Int) :
    seriesMaxInt ((n0 :: t).map Value.int) = Option.some (t.foldl max n0) := by
  simp only [seriesMaxInt]
  rw [colInts_map_int]
  rfl

/-- Renaming maps a label to `"idx"` only from `"idx"` itself. -/
theorem applyRename_eq_idx (s : String) : applyRename s = "idx" ↔ s = "idx" := by
  by_cases h : s = "idx"
  · simp [h, applyRename, RESULT_NEW_COLUMN_NAMES]
  · simp only [applyRename, RESULT_NEW_COLUMN_NAMES, List.lookup]
    constructor
    · intro hv
      repeat' split at hv
      all_goals simp_all
    · intro hv
      exact absurd hv h

/-- The rename step keeps the `idx` column in place: looking it up before
and after renaming agrees. -/
theorem lookup_rename_idx (cols : List (String × List Value)) :
    (cols.map (fun c => (applyRename c.1, c.2))).lookup "idx" = cols.lookup "idx" := by
  induction cols with
  | nil => rfl
  | cons c t ih =>
    by_cases h : c.1 = "idx"
    · have h2 : applyRename c.1 = "idx" := (applyRename_eq_idx c.1).mpr h
      have h3 : applyRename "idx" = "idx" := rfl
      simp [List.lookup, h, h2, h3]
    · have h2 : ¬ applyRename c.1 = "idx" := fun hx => h ((applyRename_eq_idx c.1).mp hx)
      have hb1 : ("idx" == applyRename c.1) = false :=
        beq_eq_false_iff_ne.mpr (Ne.symm h2)
      have hb2 : ("idx" == c.1) = false := beq_eq_false_iff_ne.mpr (Ne.symm h)
      simp only [List.map_cons, List.lookup, hb1, hb2]
      exact ih

/-- Looking up `idx` after the per-column cleaning step returns the
replaced idx column, as soon as an `idx` column exists. -/
theorem lookup_cleaned_idx (l : List (String × List Value)) (A : List Value)
    (g : Value → Value) (vs : List Value) (h : l.lookup "idx" = Option.some vs) :
    (l.map (fun c => if c.1 = "idx" then (c.1, A) else (c.1, c.2.map g))).lookup "idx" =
      Option.some A := by
  induction l with
  | nil => simp [List.lookup] at h
  | cons c t ih =>
    by_cases hc : c.1 = "idx"
    · simp only [List.map_cons]
      rw [if_pos hc]
      have hb : ("idx" == c.1) = true := by simp [hc]
      simp [List.lookup, hb]
    · have hb : ("idx" == c.1) = false := beq_eq_false_iff_ne.mpr (Ne.symm hc)
      simp only [List.lookup, hb] at h
      simp only [List.map_cons]
      rw [if_neg hc]
      simp only [List.lookup, hb]
      exact ih h

/-- The per-column cleaning step keeps every column label. -/
theorem map_fst_cleaned (l : List (String × List Value)) (A : List Value)
    (g : Value → Value) :
    (l.map (fun c => if c.1 = "idx" then (c.1, A) else (c.1, c.2.map g))).map Prod.fst =
      l.map Prod.fst := by
  induction l with
  | nil => rfl
  | cons c t ih =>
    by_cases hc : c.1 = "idx" <;> simp [hc, ih]

/-- C6: after `df_final_cleaner`, (a) the column labels are exactly the
input labels renamed by the fixed presentation mapping (user_id → ID,
ktr_id → 사번, email → 이메일, signup → 승인여부, deleted_at_interval →
정지일수, role_string → 권한), (b) every value in every column is a
string, and (c) the `idx` column holds the original idx numbers rendered
as strings and zero-padded to the digit-width of the maximum idx. -/
theorem df_final_cleaner_presentation (df : DF) (ns : List Int)
    (hidx : df.cols.lookup "idx" = Option.some (ns.map Value.int))
    (hne : ns ≠ []) :
    ((df_final_cleaner df).cols.map Prod.fst =
      df.cols.map (fun c => applyRename c.1)) ∧
    (∀ c ∈ (df_final_cleaner df).cols, ∀ v ∈ c.2, ∃ s, v = Value.str s) ∧
    (∃ m, seriesMaxInt (ns.map Value.int) = Option.some m ∧ m ∈ ns ∧
      (∀ x ∈ ns, x ≤ m) ∧
      (df_final_cleaner df).getCol "idx" =
        Option.some (ns.map (fun n =>
          Value.str (zfill (toString m).length (toString n))))) := by
  obtain ⟨n0, t, rfl⟩ : ∃ n0 t, ns = n0 :: t := by
    cases ns with
    | nil => exact absurd rfl hne
    | cons a b => exact ⟨a, b, rfl⟩
  have hser : seriesMaxInt ((n0 :: t).map Value.int) =
      Option.some (t.foldl max n0) := seriesMaxInt_map_int n0 t
  have hlookR : (df.cols.map (fun c => (applyRename c.1, c.2))).lookup "idx" =
      Option.some ((n0 :: t).map Value.int) := by
    rw [lookup_rename_idx]; exact hidx
  have hidxVals :
      (((DF.mk (df.cols.map (fun c => (applyRename c.1, c.2)))).getCol "idx").getD []) =
        (n0 :: t).map Value.int := by
    simp [DF.getCol, hlookR]
  have hw : idxMaxSize ((n0 :: t).map Value.int) = (toString (t.foldl max n0)).length := by
    simp only [idxMaxSize]
    rw [hser]
    rfl
  refine ⟨?_, ?_, ?_⟩
  · simp only [df_final_cleaner]
    rw [hidxVals, map_fst_cleaned, List.map_map]
    rfl
  · intro c hc v hv
    simp only [df_final_cleaner] at hc
    obtain ⟨c', hc', rfl⟩ := List.mem_map.mp hc
    by_cases h : c'.1 = "idx"
    · rw [if_pos h] at hv
      simp only at hv
      obtain ⟨w, _, rfl⟩ := List.mem_map.mp hv
      exact ⟨_, rfl⟩
    · rw [if_neg h] at hv
      simp only at hv
      obtain ⟨w, _, rfl⟩ := List.mem_map.mp hv
      exact ⟨_, rfl⟩
  · refine ⟨t.foldl max n0, hser, foldl_max_mem t n0, le_foldl_max t n0, ?_⟩
    simp only [df_final_cleaner, DF.getCol]
    rw [hlookR]
    simp only [Option.getD_some]
    rw [hw]
    rw [lookup_cleaned_idx _ _ _ _ hlookR]
    rw [List.map_map]
    rfl

/-- C6 witness: a two-row frame with idx values 7 and 12 cleans to
string columns with idx zero-padded to width 2. -/
theorem df_final_cleaner_presentation_witness :
    ((df_final_cleaner
        (DF.mk [("idx", [Value.int 7, Value.int 12]),
                ("user_id", [Value.str "a", Value.str "b"])])).cols.map Prod.fst =
      (DF.mk [("idx", [Value.int 7, Value.int 12]),
              ("user_id", [Value.str "a", Value.str "b"])]).cols.map
        (fun c => applyRename c.1)) ∧
    (∀ c ∈ (df_final_cleaner
        (DF.mk [("idx", [Value.int 7, Value.int 12]),
                ("user_id", [Value.str "a", Value.str "b"])])).cols,
      ∀ v ∈ c.2, ∃ s, v = Value.str s) ∧
    (∃ m, seriesMaxInt ([(7 : Int), 12].map Value.int) = Option.some m ∧
      m ∈ [(7 : Int), 12] ∧ (∀ x ∈ [(7 : Int), 12], x ≤ m) ∧
      (df_final_cleaner
        (DF.mk [("idx", [Value.int 7, Value.int 12]),
                ("user_id", [Value.str "a", Value.str "b"])])).getCol "idx" =
        Option.some ([(7 : Int), 12].map (fun n =>
          Value.str (zfill (toString m).length (toString n))))) :=
  df_final_cleaner_presentation
    (DF.mk [("idx", [Value.int 7, Value.int 12]),
            ("user_id", [Value.str "a", Value.str "b"])])
    [7, 12] (by decide) (by decide)

end BedrockFE
